import Mathlib

/-!
# Verification of the gayatri-backend catalog service

Shallow embedding of the two server variants in this repository:

* **V1** = `src/index.js` (CommonJS variant, products carry a `mililitres` field,
  the uploads/mock directories are created once at startup);
* **V2** = `src/unnamed/part_000` (ESM variant, products carry no volume field,
  `getCategoryPath` lazily creates the mock directory, DELETE never unlinks the
  image file).

Modeling conventions:

* A category document (`mock/<category>.json` resp. `mock/<category>Cosmetic.json`)
  is keyed by the lowercased category token, which determines the path in both
  variants.  Its contents are modeled at the parsed-JSON value level: `CatFile.json l`
  stands for a file whose text parses (via `JSON.parse`) to the array `l` of
  records, `CatFile.corrupt` for a file whose text does not parse.  Writing
  `JSON.stringify(data, null, 2)` therefore stores `CatFile.json data`; the
  pretty-printing itself is a formatting property below this level of abstraction.
* JavaScript numbers produced by `Number(...)` are modeled by `JsNum`
  (`nan` or a rational); JSON cannot represent `NaN`, and `JSON.stringify`
  serializes it as `null`, so persisted/parsed number fields are modeled by
  `JsonNum` (`null` or a rational).  `JsLit` is the common value space used to
  compare the two.
* The uploads directory is modeled as the list of file names present in it.
* Request body fields arrive as `Option String` (a missing form field is
  `undefined`); JS truthiness on such a field is `truthy`.
* `uuid()` and `Date.now()` are modeled as explicit parameters (`newId`,
  `UploadedFile.timestamp`).
-/

/-- ASCII whitespace trimmed by `String.prototype.trim` (the service only ever
feeds it form-field text; further Unicode space classes are not exercised). -/
def isWsChar (c : Char) : Bool :=
  c == ' ' || c == '\t' || c == '\n' || c == '\r'

/-- Trim leading and trailing whitespace from a character list. -/
def trimChars (l : List Char) : List Char :=
  ((l.dropWhile isWsChar).reverse.dropWhile isWsChar).reverse

/-- JavaScript `s.trim()`, at the character-list level. -/
def jsTrim (s : String) : String := ⟨trimChars s.data⟩

/-- Split a character list on a separator character (used to recognise the
integer and fractional parts of a decimal numeral). -/
def splitOnChar (sep : Char) : List Char → List (List Char)
  | [] => [[]]
  | c :: rest =>
    let r := splitOnChar sep rest
    if c == sep then [] :: r
    else
      match r with
      | [] => [[c]]
      | h :: t => (c :: h) :: t

/-- Numeric value of a digit string (most significant digit first). -/
def digitsToNat (l : List Char) : Nat :=
  l.foldl (fun a c => 10 * a + (c.toNat - 48)) 0

/-- Result of JavaScript `Number(...)`: either a number or `NaN`. -/
inductive JsNum where
  | nan : JsNum
  | num : ℚ → JsNum
  deriving DecidableEq

/-- Parse an unsigned decimal numeral `digits[.digits]`; anything else is
rejected (yields `NaN` further up). -/
def parseUnsigned (l : List Char) : Option ℚ :=
  match splitOnChar '.' l with
  | [ip] =>
    if !ip.isEmpty && ip.all Char.isDigit then some (digitsToNat ip : ℚ)
    else none
  | [ip, fp] =>
    if (!ip.isEmpty || !fp.isEmpty) && ip.all Char.isDigit && fp.all Char.isDigit then
      some ((digitsToNat ip : ℚ) + (digitsToNat fp : ℚ) / ((10 : ℚ) ^ fp.length))
    else none
  | _ => none

/-- Parse an optionally signed decimal numeral. -/
def parseSigned : List Char → Option ℚ
  | '-' :: rest => (parseUnsigned rest).map (fun q => -q)
  | '+' :: rest => parseUnsigned rest
  | l => parseUnsigned l

/-- JavaScript `Number(s)` on a string, restricted to the decimal-numeral
fragment the service exercises: whitespace is trimmed, the empty string is `0`,
a signed decimal numeral is its value, and anything else is `NaN`. -/
def jsToNumber (s : String) : JsNum :=
  let t := jsTrim s
  if t = "" then JsNum.num 0
  else
    match parseSigned t.data with
    | some q => JsNum.num q
    | none => JsNum.nan

/-- JavaScript `String(x)` on a possibly-missing form field. -/
def jsToString : Option String → String
  | none => "undefined"
  | some s => s

/-- JavaScript `Number(x)` on a possibly-missing form field
(`Number(undefined)` is `NaN`). -/
def jsNumOfField : Option String → JsNum
  | none => JsNum.nan
  | some s => jsToNumber s

/-- JavaScript truthiness of a possibly-missing string field: `undefined` and
the empty string are falsy, every other string is truthy. -/
def truthy : Option String → Bool
  | none => false
  | some s => s != ""

/-- A number field of a record as JSON can hold it: `JSON.stringify` writes
`NaN` as `null`, so a persisted number field is `null` or an actual number. -/
inductive JsonNum where
  | null : JsonNum
  | num : ℚ → JsonNum
  deriving DecidableEq

/-- Serialization of a number field by `JSON.stringify`: `NaN` becomes `null`. -/
def serializeNum : JsNum → JsonNum
  | JsNum.nan => JsonNum.null
  | JsNum.num q => JsonNum.num q

/-- Common JavaScript value space in which in-memory numbers (`JsNum`) and
persisted JSON number fields (`JsonNum`) can be compared: `null` and `NaN` are
distinct JavaScript values. -/
inductive JsLit where
  | null : JsLit
  | nan : JsLit
  | num : ℚ → JsLit
  deriving DecidableEq

/-- The JavaScript value denoted by an in-memory number. -/
def JsNum.lit : JsNum → JsLit
  | JsNum.nan => JsLit.nan
  | JsNum.num q => JsLit.num q

/-- The JavaScript value a client sees for a parsed JSON number field. -/
def JsonNum.lit : JsonNum → JsLit
  | JsonNum.null => JsLit.null
  | JsonNum.num q => JsLit.num q

/-- JavaScript `category.toLowerCase()`, character by character. -/
def toLowerStr (s : String) : String := ⟨s.data.map Char.toLower⟩

/-- The `getCategoryPath` helper: both variants resolve a category token to
`mock/<token.toLowerCase()><suffix>.json` for a fixed per-variant suffix, so the
file is determined by the lowercased token, which we use as the storage key. -/
def getCategoryPath (category : String) : String := toLowerStr category

/-- An incoming multipart upload; multer names the stored file
`` `${Date.now()}-${file.originalname}` ``. -/
structure UploadedFile where
  timestamp : Nat
  originalname : String
  deriving DecidableEq

/-- The name under which multer stores the upload in the uploads directory. -/
def UploadedFile.savedName (f : UploadedFile) : String :=
  toString f.timestamp ++ "-" ++ f.originalname

/-- The form fields of a POST body the handlers read; a missing field is
`none` (JavaScript `undefined`). -/
structure ReqBody where
  name : Option String
  price : Option String
  mililitres : Option String
  deriving DecidableEq

/-- The image URL `req.file ? "/uploads/" + req.file.filename : ""`. -/
def imageUrlOf : Option UploadedFile → String
  | some f => "/uploads/" ++ f.savedName
  | none => ""

/-- Contents of a category document: the parse of its text, or `corrupt` when
`JSON.parse` would throw. -/
inductive CatFile (α : Type) where
  | json : List α → CatFile α
  | corrupt : CatFile α
  deriving DecidableEq

/-- Model of `data.findIndex(p => p.id === id)` followed by `data.splice(idx, 1)`:
returns the first element satisfying the predicate together with the remaining
list, or `none` when no element matches (`findIndex` returned `-1`). -/
def spliceFirst {α : Type} (p : α → Bool) : List α → Option (α × List α)
  | [] => none
  | x :: rest =>
    if p x then some (x, rest)
    else
      match spliceFirst p rest with
      | none => none
      | some (d, l) => some (d, x :: l)

/-- Remove the first occurrence of `pat` from a character list (JavaScript
`s.replace(pat, "")` with a string pattern replaces only the first occurrence). -/
def removeFirstOccAux (pat : List Char) : List Char → List Char
  | [] => []
  | c :: rest =>
    if pat.isPrefixOf (c :: rest) then (c :: rest).drop pat.length
    else c :: removeFirstOccAux pat rest

/-- JavaScript `s.replace(pat, "")` for a string pattern. -/
def replaceFirst (s pat : String) : String := ⟨removeFirstOccAux pat.data s.data⟩

/-- HTTP responses the handlers produce, tagged by the record type `α` they
carry. -/
inductive Response (α : Type) where
  | ok : List α → Response α
  | created : α → Response α
  | deleted : α → Response α
  | badRequest : Response α
  | notFoundCategory : Response α
  | notFoundProduct : Response α
  | serverError : Response α
  deriving DecidableEq

/-- HTTP status code of a response. -/
def Response.status {α : Type} : Response α → Nat
  | Response.ok _ => 200
  | Response.created _ => 201
  | Response.deleted _ => 200
  | Response.badRequest => 400
  | Response.notFoundCategory => 404
  | Response.notFoundProduct => 404
  | Response.serverError => 500

/-! ## V1: `src/index.js` -/

/-- The in-memory product object built at `src/index.js:135`. -/
structure Product1 where
  id : String
  name : String
  price : JsNum
  mililitres : JsNum
  category : String
  image : String
  deriving DecidableEq

/-- A product record as it exists in persisted JSON (and hence as `JSON.parse`
returns it): number fields are `null`-or-number.  The service only ever writes
string-valued `id`/`name`/`category`/`image`, which the model reflects. -/
structure JProduct1 where
  id : String
  name : String
  price : JsonNum
  mililitres : JsonNum
  category : String
  image : String
  deriving DecidableEq

/-- Serialization (`JSON.stringify`) of a V1 product (field by field; `NaN` number fields
become `null`). -/
def serializeProduct1 (p : Product1) : JProduct1 :=
  { id := p.id, name := p.name, price := serializeNum p.price,
    mililitres := serializeNum p.mililitres, category := p.category,
    image := p.image }

/-- Filesystem state seen by V1: the category documents under `mock/` and the
file names present in the uploads directory (both directories exist from
startup, `src/index.js:48-56`). -/
structure FS1 where
  catFiles : String → Option (CatFile JProduct1)
  uploads : List String

/-- Effect of `fs.writeFileSync` on a category document. -/
def setCat1 (s : FS1) (key : String) (v : CatFile JProduct1) : FS1 :=
  { s with catFiles := fun k => if k = key then some v else s.catFiles k }

/-- Handler of `GET /:category`, `src/index.js:90-110`: if the document is missing,
write `"[]"` and respond with an empty array; otherwise respond with the parse
of the document (a parse failure is caught and becomes a 500). -/
def getHandler1 (s : FS1) (category : String) : Response JProduct1 × FS1 :=
  let key := getCategoryPath category
  match s.catFiles key with
  | none => (Response.ok [], setCat1 s key (CatFile.json []))
  | some (CatFile.json data) => (Response.ok data, s)
  | some CatFile.corrupt => (Response.serverError, s)

/-- The product object of `src/index.js:135-142`. -/
def mkProduct1 (newId : String) (body : ReqBody) (category : String)
    (imageUrl : String) : Product1 :=
  { id := newId
    name := jsToString body.name
    price := jsNumOfField body.price
    mililitres := if truthy body.mililitres then jsNumOfField body.mililitres else JsNum.num 0
    category := toLowerStr category
    image := imageUrl }

/-- The load step of `src/index.js:148-157`: a missing file or a file whose
contents fail to parse is treated as the empty array. -/
def loadData1 (s : FS1) (key : String) : List JProduct1 :=
  match s.catFiles key with
  | some (CatFile.json l) => l
  | some CatFile.corrupt => []
  | none => []

/-- The `POST /:category` handler body of `src/index.js:112-172` (after multer
ran): validate `name`/`price` truthiness, build the product, load the document,
append, persist, and respond 201 with the product (serialized by `res.json`). -/
def postHandler1 (s : FS1) (category : String) (body : ReqBody)
    (file : Option UploadedFile) (newId : String) : Response JProduct1 × FS1 :=
  if !truthy body.name || !truthy body.price then (Response.badRequest, s)
  else
    let product := mkProduct1 newId body category (imageUrlOf file)
    let key := getCategoryPath category
    (Response.created (serializeProduct1 product),
      setCat1 s key (CatFile.json (loadData1 s key ++ [serializeProduct1 product])))

/-- The `upload.single('image')` middleware: when a file field is present,
multer writes it into the uploads directory before the handler runs. -/
def multerSave1 (s : FS1) (file : Option UploadedFile) : FS1 :=
  match file with
  | none => s
  | some f => { s with uploads := f.savedName :: s.uploads }

/-- The full `POST /:category` pipeline of V1: multer stores the upload, then
the handler body runs. -/
def postPipeline1 (s : FS1) (category : String) (body : ReqBody)
    (file : Option UploadedFile) (newId : String) : Response JProduct1 × FS1 :=
  postHandler1 (multerSave1 s file) category body file newId

/-- The image-unlink step of `src/index.js:202-210`: when the removed record's
`image` is truthy, strip the `/uploads/` prefix and delete that file from the
uploads directory if it exists (its absence is silently ignored). -/
def unlinkImage1 (s : FS1) (image : String) : FS1 :=
  if image = "" then s
  else if s.uploads.contains (replaceFirst image "/uploads/") then
    { s with uploads := s.uploads.erase (replaceFirst image "/uploads/") }
  else s

/-- Handler of `DELETE /:category/:id`, `src/index.js:174-224`: 404 when the document is
missing, 500 when it does not parse, 404 when no record has the identifier;
otherwise splice out the first match, best-effort unlink its image, persist the
remaining records, and respond with the removed record. -/
def deleteHandler1 (s : FS1) (category : String) (pid : String) :
    Response JProduct1 × FS1 :=
  let key := getCategoryPath category
  match s.catFiles key with
  | none => (Response.notFoundCategory, s)
  | some CatFile.corrupt => (Response.serverError, s)
  | some (CatFile.json data) =>
    match spliceFirst (fun p => p.id == pid) data with
    | none => (Response.notFoundProduct, s)
    | some (d, rest) =>
      (Response.deleted d, setCat1 (unlinkImage1 s d.image) key (CatFile.json rest))

/-! ## V2: `src/unnamed/part_000` -/

/-- The in-memory product object built at `src/unnamed/part_000:102`
(no volume field). -/
structure Product2 where
  id : String
  name : String
  price : JsNum
  category : String
  image : String
  deriving DecidableEq

/-- A V2 product record as persisted JSON. -/
structure JProduct2 where
  id : String
  name : String
  price : JsonNum
  category : String
  image : String
  deriving DecidableEq

/-- Serialization (`JSON.stringify`) of a V2 product. -/
def serializeProduct2 (p : Product2) : JProduct2 :=
  { id := p.id, name := p.name, price := serializeNum p.price,
    category := p.category, image := p.image }

/-- Filesystem state seen by V2.  `mockDirExists` records whether the `mock`
directory entry exists: unlike V1, V2 creates it lazily inside
`getCategoryPath` (`src/unnamed/part_000:41-51`). -/
structure FS2 where
  catFiles : String → Option (CatFile JProduct2)
  uploads : List String
  mockDirExists : Bool

/-- Effect of `fs.writeFileSync` on a category document (V2). -/
def setCat2 (s : FS2) (key : String) (v : CatFile JProduct2) : FS2 :=
  { s with catFiles := fun k => if k = key then some v else s.catFiles k }

/-- The side effect of V2's `getCategoryPath` (and of the redundant
`fs.mkdirSync(dirPath)` in its POST handler): create the mock directory if
absent. -/
def touchMockDir (s : FS2) : FS2 := { s with mockDirExists := true }

/-- Handler of `GET /:category`, `src/unnamed/part_000:53-73`. -/
def getHandler2 (s : FS2) (category : String) : Response JProduct2 × FS2 :=
  let s1 := touchMockDir s
  let key := getCategoryPath category
  match s1.catFiles key with
  | none => (Response.ok [], setCat2 s1 key (CatFile.json []))
  | some (CatFile.json data) => (Response.ok data, s1)
  | some CatFile.corrupt => (Response.serverError, s1)

/-- The product object of `src/unnamed/part_000:102-108`. -/
def mkProduct2 (newId : String) (body : ReqBody) (category : String)
    (imageUrl : String) : Product2 :=
  { id := newId
    name := jsToString body.name
    price := jsNumOfField body.price
    category := toLowerStr category
    image := imageUrl }

/-- The load step of `src/unnamed/part_000:120-131` (missing or unparsable
file is the empty array). -/
def loadData2 (s : FS2) (key : String) : List JProduct2 :=
  match s.catFiles key with
  | some (CatFile.json l) => l
  | some CatFile.corrupt => []
  | none => []

/-- The `POST /:category` handler body of `src/unnamed/part_000:75-148`
(validation runs before `getCategoryPath`, so the mock directory is only
touched on the success path). -/
def postHandler2 (s : FS2) (category : String) (body : ReqBody)
    (file : Option UploadedFile) (newId : String) : Response JProduct2 × FS2 :=
  if !truthy body.name || !truthy body.price then (Response.badRequest, s)
  else
    let product := mkProduct2 newId body category (imageUrlOf file)
    let s1 := touchMockDir s
    let key := getCategoryPath category
    (Response.created (serializeProduct2 product),
      setCat2 s1 key (CatFile.json (loadData2 s1 key ++ [serializeProduct2 product])))

/-- The `upload.single('image')` middleware of V2. -/
def multerSave2 (s : FS2) (file : Option UploadedFile) : FS2 :=
  match file with
  | none => s
  | some f => { s with uploads := f.savedName :: s.uploads }

/-- The full `POST /:category` pipeline of V2. -/
def postPipeline2 (s : FS2) (category : String) (body : ReqBody)
    (file : Option UploadedFile) (newId : String) : Response JProduct2 × FS2 :=
  postHandler2 (multerSave2 s file) category body file newId

/-- Handler of `DELETE /:category/:id`, `src/unnamed/part_000:150-190`: as V1, except
that `getCategoryPath` may create the mock directory first and that the removed
record's image file is never unlinked. -/
def deleteHandler2 (s : FS2) (category : String) (pid : String) :
    Response JProduct2 × FS2 :=
  let s1 := touchMockDir s
  let key := getCategoryPath category
  match s1.catFiles key with
  | none => (Response.notFoundCategory, s1)
  | some CatFile.corrupt => (Response.serverError, s1)
  | some (CatFile.json data) =>
    match spliceFirst (fun p => p.id == pid) data with
    | none => (Response.notFoundProduct, s1)
    | some (d, rest) => (Response.deleted d, setCat2 s1 key (CatFile.json rest))

/-! ## Concrete example values used by witnesses and counterexamples -/

/-- A valid POST body: `name=Serum`, `price=250`, no volume field. -/
def exBodyValid : ReqBody := { name := some "Serum", price := some "250", mililitres := none }

/-- A POST body with a non-numeric price. -/
def exBodyNanPrice : ReqBody := { name := some "Serum", price := some "abc", mililitres := none }

/-- A POST body with a valid numeric price but a non-numeric volume
(`mililitres`) field. -/
def exBodyNanMl : ReqBody :=
  { name := some "Serum", price := some "250", mililitres := some "abc" }

/-- A POST body missing the required `price` field. -/
def exBodyNoPrice : ReqBody := { name := some "Serum", price := none, mililitres := none }

/-- An empty V1 filesystem (directories exist, no files). -/
def exFS1Empty : FS1 := { catFiles := fun _ => none, uploads := [] }

/-- A V1 filesystem whose `face` document exists but does not parse. -/
def exFS1Corrupt : FS1 :=
  { catFiles := fun k => if k = "face" then some CatFile.corrupt else none, uploads := [] }

/-- A stored V1 record with identifier `a` and an attachment reference. -/
def exRec1a : JProduct1 :=
  { id := "a", name := "Serum", price := JsonNum.num 250, mililitres := JsonNum.num 0,
    category := "face", image := "/uploads/100-a.png" }

/-- A stored V1 record with identifier `b` and no attachment. -/
def exRec1b : JProduct1 :=
  { id := "b", name := "Cream", price := JsonNum.num 300, mililitres := JsonNum.num 50,
    category := "face", image := "" }

/-- A V1 filesystem with a two-record `face` document and the attachment of
`exRec1a` present in the uploads directory. -/
def exFS1Two : FS1 :=
  { catFiles := fun k => if k = "face" then some (CatFile.json [exRec1a, exRec1b]) else none,
    uploads := ["100-a.png"] }

/-- A stored V2 record with identifier `p1` and an attachment reference. -/
def exRec2 : JProduct2 :=
  { id := "p1", name := "Serum", price := JsonNum.num 250, category := "face",
    image := "/uploads/100-a.png" }

/-- A V2 filesystem with a one-record `face` document whose record references a
stored attachment; the mock directory already exists. -/
def exFS2One : FS2 :=
  { catFiles := fun k => if k = "face" then some (CatFile.json [exRec2]) else none,
    uploads := ["100-a.png"], mockDirExists := true }

/-- A completely fresh V2 filesystem: no documents, no uploads, and the mock
directory not yet created. -/
def exFS2Fresh : FS2 := { catFiles := fun _ => none, uploads := [], mockDirExists := false }

/-- An empty V2 filesystem whose mock directory already exists. -/
def exFS2Empty : FS2 := { catFiles := fun _ => none, uploads := [], mockDirExists := true }

/-- A V2 filesystem whose `face` document exists but does not parse. -/
def exFS2Corrupt : FS2 :=
  { catFiles := fun k => if k = "face" then some CatFile.corrupt else none,
    uploads := [], mockDirExists := true }

/-- An example upload (`Date.now() = 100`, original name `a.png`). -/
def exFile : UploadedFile := { timestamp := 100, originalname := "a.png" }

/-- A V1 filesystem with the two-record `face` document but an empty uploads
directory (the attachment `exRec1a.image` refers to is missing). -/
def exFS1NoUpload : FS1 :=
  { catFiles := fun k => if k = "face" then some (CatFile.json [exRec1a, exRec1b]) else none,
    uploads := [] }

/-- The record a successful `POST /face` with `exBodyValid`, no file and
`newId = "id-1"` creates (as serialized/persisted). -/
def exSerumRec : JProduct1 :=
  { id := "id-1", name := "Serum", price := JsonNum.num 250,
    mililitres := JsonNum.num 0, category := "face", image := "" }

/-! ## Helper lemmas -/

/-- The `findIndex`-plus-`splice` combination equals: the first element satisfying the
predicate together with the list from which exactly that occurrence has been
removed (order of the remaining elements preserved). -/
theorem spliceFirst_eq {α : Type} (p : α → Bool) (l : List α) :
    spliceFirst p l = (l.find? p).map (fun d => (d, l.eraseP p)) := by
  induction l with
  | nil => rfl
  | cons x xs ih =>
    by_cases h : p x
    · simp [spliceFirst, h, List.eraseP_cons, List.find?_cons_of_pos]
    · simp only [spliceFirst, h, if_neg, Bool.false_eq_true, not_false_iff, ih,
        List.find?_cons_of_neg _ h, List.eraseP_cons, cond_eq_if]
      cases hx : xs.find? p <;> simp [h]

/-- A list is a (boolean) prefix of itself followed by anything. -/
theorem isPrefixOfAppend (l1 l2 : List Char) : l1.isPrefixOf (l1 ++ l2) = true := by
  induction l1 with
  | nil => simp [List.isPrefixOf]
  | cons c cs ih => simp [List.isPrefixOf, ih]

/-- Removing the first occurrence of `pat` from `pat ++ rest` leaves `rest`. -/
theorem removeFirstOccSelf (pat rest : List Char) :
    removeFirstOccAux pat (pat ++ rest) = rest := by
  cases pat with
  | nil =>
    cases rest with
    | nil => rfl
    | cons c cs => simp [removeFirstOccAux, List.isPrefixOf]
  | cons c cs =>
    have h1 := isPrefixOfAppend (c :: cs) rest
    simp only [List.cons_append, removeFirstOccAux, List.append_eq] at *
    rw [if_pos h1]
    have h2 := List.drop_left (c :: cs) rest
    simp at h2
    simp [h2]

/-- Stripping with `("/uploads/" + f).replace("/uploads/", "")` recovers the stored file
name `f`. -/
theorem replaceFirstUploads (f : String) :
    replaceFirst ("/uploads/" ++ f) "/uploads/" = f := by
  show String.mk (removeFirstOccAux "/uploads/".data ("/uploads/".data ++ f.data)) = f
  rw [removeFirstOccSelf]

/-- An image URL of the form `/uploads/<name>` is never the empty string, so
the truthiness check in the DELETE handler takes the unlink branch. -/
theorem uploadsUrlNeEmpty (f : String) : ("/uploads/" ++ f) ≠ "" := by
  intro h
  have h2 : "/uploads/".data ++ f.data = ([] : List Char) := congrArg String.data h
  simp at h2

/-- The image-unlink step never touches category documents. -/
theorem unlinkImage1_catFiles (s : FS1) (img : String) :
    (unlinkImage1 s img).catFiles = s.catFiles := by
  unfold unlinkImage1
  split_ifs <;> rfl

/-- Claim C3: for every category with no existing document, a first GET creates
an empty document file for the category and returns an empty sequence
(both variants). -/
theorem c3_first_get_creates_empty_doc :
    (∀ (s : FS1) (cat : String), s.catFiles (getCategoryPath cat) = none →
      (getHandler1 s cat).1 = Response.ok [] ∧
      ((getHandler1 s cat).2).catFiles (getCategoryPath cat) = some (CatFile.json [])) ∧
    (∀ (s : FS2) (cat : String), s.catFiles (getCategoryPath cat) = none →
      (getHandler2 s cat).1 = Response.ok [] ∧
      ((getHandler2 s cat).2).catFiles (getCategoryPath cat) = some (CatFile.json [])) := by
  constructor
  · intro s cat h
    simp [getHandler1, h, setCat1]
  · intro s cat h
    simp [getHandler2, touchMockDir, h, setCat2]

theorem c3_witness :
    exFS1Empty.catFiles (getCategoryPath "face") = none ∧
    ((getHandler1 exFS1Empty "face").1 = Response.ok [] ∧
      ((getHandler1 exFS1Empty "face").2).catFiles (getCategoryPath "face")
        = some (CatFile.json [])) ∧
    exFS2Empty.catFiles (getCategoryPath "face") = none ∧
    ((getHandler2 exFS2Empty "face").1 = Response.ok [] ∧
      ((getHandler2 exFS2Empty "face").2).catFiles (getCategoryPath "face")
        = some (CatFile.json [])) :=
  ⟨by decide, c3_first_get_creates_empty_doc.1 exFS1Empty "face" (by decide),
   by decide, c3_first_get_creates_empty_doc.2 exFS2Empty "face" (by decide)⟩

/-- Claim C4: a POST whose `name` or `price` field is absent or empty fails with
status 400 and leaves every category document unchanged (both variants). -/
theorem c4_post_missing_fields_400 :
    (∀ (s : FS1) (cat : String) (body : ReqBody) (file : Option UploadedFile) (newId : String),
      truthy body.name = false ∨ truthy body.price = false →
      (postPipeline1 s cat body file newId).1 = Response.badRequest ∧
      Response.status (postPipeline1 s cat body file newId).1 = 400 ∧
      ((postPipeline1 s cat body file newId).2).catFiles = s.catFiles) ∧
    (∀ (s : FS2) (cat : String) (body : ReqBody) (file : Option UploadedFile) (newId : String),
      truthy body.name = false ∨ truthy body.price = false →
      (postPipeline2 s cat body file newId).1 = Response.badRequest ∧
      Response.status (postPipeline2 s cat body file newId).1 = 400 ∧
      ((postPipeline2 s cat body file newId).2).catFiles = s.catFiles) := by
  constructor
  · intro s cat body file newId h
    have hv : (!truthy body.name || !truthy body.price) = true := by
      rcases h with h | h <;> simp [h]
    cases file <;>
      simp [postPipeline1, postHandler1, multerSave1, hv, Response.status]
  · intro s cat body file newId h
    have hv : (!truthy body.name || !truthy body.price) = true := by
      rcases h with h | h <;> simp [h]
    cases file <;>
      simp [postPipeline2, postHandler2, multerSave2, hv, Response.status]

theorem c4_witness :
    (truthy exBodyNoPrice.name = false ∨ truthy exBodyNoPrice.price = false) ∧
    ((postPipeline1 exFS1Two "face" exBodyNoPrice none "id-9").1 = Response.badRequest ∧
      Response.status (postPipeline1 exFS1Two "face" exBodyNoPrice none "id-9").1 = 400 ∧
      ((postPipeline1 exFS1Two "face" exBodyNoPrice none "id-9").2).catFiles
        = exFS1Two.catFiles) ∧
    ((postPipeline2 exFS2One "face" exBodyNoPrice none "id-9").1 = Response.badRequest ∧
      Response.status (postPipeline2 exFS2One "face" exBodyNoPrice none "id-9").1 = 400 ∧
      ((postPipeline2 exFS2One "face" exBodyNoPrice none "id-9").2).catFiles
        = exFS2One.catFiles) :=
  ⟨by decide, c4_post_missing_fields_400.1 exFS1Two "face" exBodyNoPrice none "id-9" (by decide),
   c4_post_missing_fields_400.2 exFS2One "face" exBodyNoPrice none "id-9" (by decide)⟩

/-- Claim C10: a POST carrying an attachment but missing `name` or `price` has
already stored the attachment (multer runs before validation); the 400 response
leaves it on disk while no product record is persisted (both variants). -/
theorem c10_orphan_attachment_on_400 :
    (∀ (s : FS1) (cat : String) (body : ReqBody) (f : UploadedFile) (newId : String),
      truthy body.name = false ∨ truthy body.price = false →
      (postPipeline1 s cat body (some f) newId).1 = Response.badRequest ∧
      ((postPipeline1 s cat body (some f) newId).2).uploads = f.savedName :: s.uploads ∧
      ((postPipeline1 s cat body (some f) newId).2).catFiles = s.catFiles) ∧
    (∀ (s : FS2) (cat : String) (body : ReqBody) (f : UploadedFile) (newId : String),
      truthy body.name = false ∨ truthy body.price = false →
      (postPipeline2 s cat body (some f) newId).1 = Response.badRequest ∧
      ((postPipeline2 s cat body (some f) newId).2).uploads = f.savedName :: s.uploads ∧
      ((postPipeline2 s cat body (some f) newId).2).catFiles = s.catFiles) := by
  constructor
  · intro s cat body f newId h
    have hv : (!truthy body.name || !truthy body.price) = true := by
      rcases h with h | h <;> simp [h]
    simp [postPipeline1, postHandler1, multerSave1, hv]
  · intro s cat body f newId h
    have hv : (!truthy body.name || !truthy body.price) = true := by
      rcases h with h | h <;> simp [h]
    simp [postPipeline2, postHandler2, multerSave2, hv]

theorem c10_witness :
    (truthy exBodyNoPrice.name = false ∨ truthy exBodyNoPrice.price = false) ∧
    ((postPipeline1 exFS1Empty "face" exBodyNoPrice (some exFile) "id-9").1
        = Response.badRequest ∧
      ((postPipeline1 exFS1Empty "face" exBodyNoPrice (some exFile) "id-9").2).uploads
        = exFile.savedName :: exFS1Empty.uploads ∧
      ((postPipeline1 exFS1Empty "face" exBodyNoPrice (some exFile) "id-9").2).catFiles
        = exFS1Empty.catFiles) ∧
    ((postPipeline2 exFS2Empty "face" exBodyNoPrice (some exFile) "id-9").1
        = Response.badRequest ∧
      ((postPipeline2 exFS2Empty "face" exBodyNoPrice (some exFile) "id-9").2).uploads
        = exFile.savedName :: exFS2Empty.uploads ∧
      ((postPipeline2 exFS2Empty "face" exBodyNoPrice (some exFile) "id-9").2).catFiles
        = exFS2Empty.catFiles) :=
  ⟨by decide,
   c10_orphan_attachment_on_400.1 exFS1Empty "face" exBodyNoPrice exFile "id-9" (by decide),
   c10_orphan_attachment_on_400.2 exFS2Empty "face" exBodyNoPrice exFile "id-9" (by decide)⟩

/-- Claim C9: when the optional volume field (`mililitres`) is absent from a POST
body, the created product's volume attribute is zero, in memory and as
persisted/returned (V1; the V2 record has no volume attribute at all). -/
theorem c9_volume_defaults_zero :
    ∀ (body : ReqBody) (newId cat img : String),
      body.mililitres = none →
      (mkProduct1 newId body cat img).mililitres = JsNum.num 0 ∧
      (serializeProduct1 (mkProduct1 newId body cat img)).mililitres = JsonNum.num 0 ∧
      ∀ (s : FS1) (file : Option UploadedFile) (sp : JProduct1),
        (postPipeline1 s cat body file newId).1 = Response.created sp →
        sp.mililitres = JsonNum.num 0 := by
  intro body newId cat img h
  have hm : (mkProduct1 newId body cat img).mililitres = JsNum.num 0 := by
    simp [mkProduct1, h, truthy]
  refine ⟨hm, by simp [serializeProduct1, hm, serializeNum], ?_⟩
  intro s file sp hp
  cases hv : (!truthy body.name || !truthy body.price) with
  | true => simp [postPipeline1, postHandler1, hv] at hp
  | false =>
    simp only [postPipeline1, postHandler1, hv, Bool.false_eq_true, if_false,
      Response.created.injEq] at hp
    subst hp
    simp [serializeProduct1, mkProduct1, h, truthy, serializeNum]

theorem c9_witness :
    exBodyValid.mililitres = none ∧
    (mkProduct1 "id-1" exBodyValid "face" "").mililitres = JsNum.num 0 ∧
    (serializeProduct1 (mkProduct1 "id-1" exBodyValid "face" "")).mililitres
      = JsonNum.num 0 ∧
    exSerumRec.mililitres = JsonNum.num 0 :=
  ⟨by decide,
   (c9_volume_defaults_zero exBodyValid "id-1" "face" "" (by decide)).1,
   (c9_volume_defaults_zero exBodyValid "id-1" "face" "" (by decide)).2.1,
   (c9_volume_defaults_zero exBodyValid "id-1" "face" "" (by decide)).2.2
     exFS1Empty none exSerumRec (by decide)⟩

/-- Claim C1: a record created by a successful POST is contained, unchanged, in
the sequence a subsequent GET on the same category returns (both variants;
neither variant rewrites the `image` field on GET). -/
theorem c1_get_after_post_round_trip :
    (∀ (s : FS1) (cat : String) (body : ReqBody) (file : Option UploadedFile)
        (newId : String) (sp : JProduct1),
      (postPipeline1 s cat body file newId).1 = Response.created sp →
      ∃ l, (getHandler1 (postPipeline1 s cat body file newId).2 cat).1 = Response.ok l ∧
        sp ∈ l) ∧
    (∀ (s : FS2) (cat : String) (body : ReqBody) (file : Option UploadedFile)
        (newId : String) (sp : JProduct2),
      (postPipeline2 s cat body file newId).1 = Response.created sp →
      ∃ l, (getHandler2 (postPipeline2 s cat body file newId).2 cat).1 = Response.ok l ∧
        sp ∈ l) := by
  constructor
  · intro s cat body file newId sp h
    cases hv : (!truthy body.name || !truthy body.price) with
    | true => simp [postPipeline1, postHandler1, hv] at h
    | false =>
      simp only [postPipeline1, postHandler1, hv, Bool.false_eq_true, if_false,
        Response.created.injEq] at h
      refine ⟨loadData1 (multerSave1 s file) (getCategoryPath cat)
          ++ [serializeProduct1 (mkProduct1 newId body cat (imageUrlOf file))], ?_, ?_⟩
      · simp [postPipeline1, postHandler1, hv, getHandler1, setCat1]
      · simp [← h]
  · intro s cat body file newId sp h
    cases hv : (!truthy body.name || !truthy body.price) with
    | true => simp [postPipeline2, postHandler2, hv] at h
    | false =>
      simp only [postPipeline2, postHandler2, hv, Bool.false_eq_true, if_false,
        Response.created.injEq] at h
      refine ⟨loadData2 (touchMockDir (multerSave2 s file)) (getCategoryPath cat)
          ++ [serializeProduct2 (mkProduct2 newId body cat (imageUrlOf file))], ?_, ?_⟩
      · simp [postPipeline2, postHandler2, hv, getHandler2, setCat2, touchMockDir]
      · simp [← h]

theorem c1_witness :
    ((postPipeline1 exFS1Empty "face" exBodyValid none "id-1").1
      = Response.created exSerumRec) ∧
    ∃ l, (getHandler1 (postPipeline1 exFS1Empty "face" exBodyValid none "id-1").2 "face").1
        = Response.ok l ∧ exSerumRec ∈ l :=
  ⟨by decide,
   c1_get_after_post_round_trip.1 exFS1Empty "face" exBodyValid none "id-1" exSerumRec
     (by decide)⟩

/-- Claim C7: a valid POST whose category document is missing or unparsable
treats the load as an empty sequence, succeeds with 201, and persists exactly
the one-element sequence holding the new record (both variants). -/
theorem c7_post_missing_or_corrupt_doc :
    (∀ (s : FS1) (cat : String) (body : ReqBody) (file : Option UploadedFile)
        (newId : String),
      truthy body.name = true → truthy body.price = true →
      (s.catFiles (getCategoryPath cat) = none ∨
        s.catFiles (getCategoryPath cat) = some CatFile.corrupt) →
      (postPipeline1 s cat body file newId).1
        = Response.created (serializeProduct1 (mkProduct1 newId body cat (imageUrlOf file))) ∧
      Response.status (postPipeline1 s cat body file newId).1 = 201 ∧
      ((postPipeline1 s cat body file newId).2).catFiles (getCategoryPath cat)
        = some (CatFile.json [serializeProduct1 (mkProduct1 newId body cat (imageUrlOf file))])) ∧
    (∀ (s : FS2) (cat : String) (body : ReqBody) (file : Option UploadedFile)
        (newId : String),
      truthy body.name = true → truthy body.price = true →
      (s.catFiles (getCategoryPath cat) = none ∨
        s.catFiles (getCategoryPath cat) = some CatFile.corrupt) →
      (postPipeline2 s cat body file newId).1
        = Response.created (serializeProduct2 (mkProduct2 newId body cat (imageUrlOf file))) ∧
      Response.status (postPipeline2 s cat body file newId).1 = 201 ∧
      ((postPipeline2 s cat body file newId).2).catFiles (getCategoryPath cat)
        = some (CatFile.json [serializeProduct2 (mkProduct2 newId body cat (imageUrlOf file))])) := by
  constructor
  · intro s cat body file newId hn hp hdoc
    have hv : (!truthy body.name || !truthy body.price) = false := by simp [hn, hp]
    have hload : loadData1 (multerSave1 s file) (getCategoryPath cat) = [] := by
      cases file <;> rcases hdoc with h | h <;> simp [loadData1, multerSave1, h]
    simp [postPipeline1, postHandler1, hv, hload, setCat1, Response.status]
  · intro s cat body file newId hn hp hdoc
    have hv : (!truthy body.name || !truthy body.price) = false := by simp [hn, hp]
    have hload : loadData2 (touchMockDir (multerSave2 s file)) (getCategoryPath cat) = [] := by
      cases file <;> rcases hdoc with h | h <;> simp [loadData2, multerSave2, touchMockDir, h]
    simp [postPipeline2, postHandler2, hv, hload, setCat2, Response.status]

theorem c7_witness :
    truthy exBodyValid.name = true ∧ truthy exBodyValid.price = true ∧
    (exFS1Corrupt.catFiles (getCategoryPath "face") = none ∨
      exFS1Corrupt.catFiles (getCategoryPath "face") = some CatFile.corrupt) ∧
    ((postPipeline1 exFS1Corrupt "face" exBodyValid none "id-1").1
        = Response.created (serializeProduct1 (mkProduct1 "id-1" exBodyValid "face"
            (imageUrlOf none))) ∧
      Response.status (postPipeline1 exFS1Corrupt "face" exBodyValid none "id-1").1 = 201 ∧
      ((postPipeline1 exFS1Corrupt "face" exBodyValid none "id-1").2).catFiles
          (getCategoryPath "face")
        = some (CatFile.json [serializeProduct1 (mkProduct1 "id-1" exBodyValid "face"
            (imageUrlOf none))])) ∧
    ((postPipeline2 exFS2Corrupt "face" exBodyValid none "id-1").1
        = Response.created (serializeProduct2 (mkProduct2 "id-1" exBodyValid "face"
            (imageUrlOf none))) ∧
      Response.status (postPipeline2 exFS2Corrupt "face" exBodyValid none "id-1").1 = 201 ∧
      ((postPipeline2 exFS2Corrupt "face" exBodyValid none "id-1").2).catFiles
          (getCategoryPath "face")
        = some (CatFile.json [serializeProduct2 (mkProduct2 "id-1" exBodyValid "face"
            (imageUrlOf none))])) :=
  ⟨by decide, by decide, by decide,
   c7_post_missing_or_corrupt_doc.1 exFS1Corrupt "face" exBodyValid none "id-1"
     (by decide) (by decide) (by decide),
   c7_post_missing_or_corrupt_doc.2 exFS2Corrupt "face" exBodyValid none "id-1"
     (by decide) (by decide) (by decide)⟩

/-- Claim C2: DELETE on an identifier matching at least one record responds with
the first matching record and persists the sequence from which exactly that
record was removed, the others kept in order (both variants). -/
theorem c2_delete_removes_first_match :
    (∀ (s : FS1) (cat pid : String) (data : List JProduct1),
      s.catFiles (getCategoryPath cat) = some (CatFile.json data) →
      (∃ r ∈ data, r.id = pid) →
      ∃ d, data.find? (fun p => p.id == pid) = some d ∧
        (deleteHandler1 s cat pid).1 = Response.deleted d ∧
        ((deleteHandler1 s cat pid).2).catFiles (getCategoryPath cat)
          = some (CatFile.json (data.eraseP (fun p => p.id == pid)))) ∧
    (∀ (s : FS2) (cat pid : String) (data : List JProduct2),
      s.catFiles (getCategoryPath cat) = some (CatFile.json data) →
      (∃ r ∈ data, r.id = pid) →
      ∃ d, data.find? (fun p => p.id == pid) = some d ∧
        (deleteHandler2 s cat pid).1 = Response.deleted d ∧
        ((deleteHandler2 s cat pid).2).catFiles (getCategoryPath cat)
          = some (CatFile.json (data.eraseP (fun p => p.id == pid)))) := by
  constructor
  · intro s cat pid data hcat hex
    have hsome : (data.find? (fun p => p.id == pid)).isSome := by
      rw [List.find?_isSome]
      obtain ⟨r, hr, hid⟩ := hex
      exact ⟨r, hr, by simp [hid]⟩
    obtain ⟨d, hd⟩ := Option.isSome_iff_exists.mp hsome
    refine ⟨d, hd, ?_, ?_⟩
    · simp [deleteHandler1, hcat, spliceFirst_eq, hd]
    · simp [deleteHandler1, hcat, spliceFirst_eq, hd, setCat1]
  · intro s cat pid data hcat hex
    have hsome : (data.find? (fun p => p.id == pid)).isSome := by
      rw [List.find?_isSome]
      obtain ⟨r, hr, hid⟩ := hex
      exact ⟨r, hr, by simp [hid]⟩
    obtain ⟨d, hd⟩ := Option.isSome_iff_exists.mp hsome
    refine ⟨d, hd, ?_, ?_⟩
    · simp [deleteHandler2, touchMockDir, hcat, spliceFirst_eq, hd]
    · simp [deleteHandler2, touchMockDir, hcat, spliceFirst_eq, hd, setCat2]

theorem c2_witness :
    exFS1Two.catFiles (getCategoryPath "face") = some (CatFile.json [exRec1a, exRec1b]) ∧
    (∃ r ∈ [exRec1a, exRec1b], r.id = "a") ∧
    (∃ d, [exRec1a, exRec1b].find? (fun p => p.id == "a") = some d ∧
      (deleteHandler1 exFS1Two "face" "a").1 = Response.deleted d ∧
      ((deleteHandler1 exFS1Two "face" "a").2).catFiles (getCategoryPath "face")
        = some (CatFile.json ([exRec1a, exRec1b].eraseP (fun p => p.id == "a")))) ∧
    (∃ d, [exRec2].find? (fun p => p.id == "p1") = some d ∧
      (deleteHandler2 exFS2One "face" "p1").1 = Response.deleted d ∧
      ((deleteHandler2 exFS2One "face" "p1").2).catFiles (getCategoryPath "face")
        = some (CatFile.json ([exRec2].eraseP (fun p => p.id == "p1")))) :=
  ⟨by decide, by decide,
   c2_delete_removes_first_match.1 exFS1Two "face" "a" [exRec1a, exRec1b]
     (by decide) (by decide),
   c2_delete_removes_first_match.2 exFS2One "face" "p1" [exRec2]
     (by decide) (by decide)⟩

/-- Claim C5, counterexample: in the `part_000` variant, deleting the record
`exRec2`, whose `image` references the stored attachment `100-a.png`, succeeds
but leaves the attachment file in the uploads directory — the claim that every
DELETE of such a record deletes the attachment is false of this variant. -/
theorem c5_claim_counterexample :
    exRec2.image = "/uploads/100-a.png" ∧
    exFS2One.uploads = ["100-a.png"] ∧
    (deleteHandler2 exFS2One "face" "p1").1 = Response.deleted exRec2 ∧
    ((deleteHandler2 exFS2One "face" "p1").2).uploads = ["100-a.png"] :=
  ⟨by decide, by decide, by decide, by decide⟩

/-- Claim C5, amended: in the `index.js` variant, DELETE of an existing record
whose image references a stored attachment removes that attachment, and a
missing attachment file is silently ignored (the request still succeeds); the
`part_000` variant never touches the uploads directory on DELETE. -/
theorem c5_attachment_delete_amended :
    (∀ (s : FS1) (cat pid : String) (data : List JProduct1) (d : JProduct1) (fname : String),
      s.catFiles (getCategoryPath cat) = some (CatFile.json data) →
      data.find? (fun p => p.id == pid) = some d →
      d.image = "/uploads/" ++ fname →
      s.uploads.contains fname = true →
      (deleteHandler1 s cat pid).1 = Response.deleted d ∧
      ((deleteHandler1 s cat pid).2).uploads = s.uploads.erase fname) ∧
    (∀ (s : FS1) (cat pid : String) (data : List JProduct1) (d : JProduct1) (fname : String),
      s.catFiles (getCategoryPath cat) = some (CatFile.json data) →
      data.find? (fun p => p.id == pid) = some d →
      d.image = "/uploads/" ++ fname →
      s.uploads.contains fname = false →
      (deleteHandler1 s cat pid).1 = Response.deleted d ∧
      Response.status (deleteHandler1 s cat pid).1 = 200 ∧
      ((deleteHandler1 s cat pid).2).uploads = s.uploads) ∧
    (∀ (s : FS2) (cat pid : String) (data : List JProduct2) (d : JProduct2),
      s.catFiles (getCategoryPath cat) = some (CatFile.json data) →
      data.find? (fun p => p.id == pid) = some d →
      (deleteHandler2 s cat pid).1 = Response.deleted d ∧
      ((deleteHandler2 s cat pid).2).uploads = s.uploads) := by
  refine ⟨?_, ?_, ?_⟩
  · intro s cat pid data d fname hcat hfind himg hup
    have h1 : unlinkImage1 s d.image = { s with uploads := s.uploads.erase fname } := by
      rw [himg]
      unfold unlinkImage1
      rw [if_neg (uploadsUrlNeEmpty fname), replaceFirstUploads, if_pos hup]
    simp [deleteHandler1, hcat, spliceFirst_eq, hfind, setCat1, h1]
  · intro s cat pid data d fname hcat hfind himg hup
    have h1 : unlinkImage1 s d.image = s := by
      rw [himg]
      unfold unlinkImage1
      rw [if_neg (uploadsUrlNeEmpty fname), replaceFirstUploads, if_neg (by rw [hup]; simp)]
    simp [deleteHandler1, hcat, spliceFirst_eq, hfind, setCat1, h1, Response.status]
  · intro s cat pid data d hcat hfind
    simp [deleteHandler2, touchMockDir, hcat, spliceFirst_eq, hfind, setCat2]

theorem c5_amended_witness :
    ((deleteHandler1 exFS1Two "face" "a").1 = Response.deleted exRec1a ∧
      ((deleteHandler1 exFS1Two "face" "a").2).uploads = exFS1Two.uploads.erase "100-a.png") ∧
    ((deleteHandler1 exFS1NoUpload "face" "a").1 = Response.deleted exRec1a ∧
      Response.status (deleteHandler1 exFS1NoUpload "face" "a").1 = 200 ∧
      ((deleteHandler1 exFS1NoUpload "face" "a").2).uploads = exFS1NoUpload.uploads) ∧
    ((deleteHandler2 exFS2One "face" "p1").1 = Response.deleted exRec2 ∧
      ((deleteHandler2 exFS2One "face" "p1").2).uploads = exFS2One.uploads) :=
  ⟨c5_attachment_delete_amended.1 exFS1Two "face" "a" [exRec1a, exRec1b] exRec1a "100-a.png"
     (by decide) (by decide) (by decide) (by decide),
   c5_attachment_delete_amended.2.1 exFS1NoUpload "face" "a" [exRec1a, exRec1b] exRec1a
     "100-a.png" (by decide) (by decide) (by decide) (by decide),
   c5_attachment_delete_amended.2.2 exFS2One "face" "p1" [exRec2] exRec2
     (by decide) (by decide)⟩

/-- Claim C6, counterexample: in the `part_000` variant, a DELETE on a category
with no document, issued while the `mock` directory does not yet exist,
returns 404 but creates the `mock` directory entry — contradicting the claim
that no directory entry is created or changed. -/
theorem c6_claim_counterexample :
    (deleteHandler2 exFS2Fresh "face" "x").1 = Response.notFoundCategory ∧
    exFS2Fresh.mockDirExists = false ∧
    ((deleteHandler2 exFS2Fresh "face" "x").2).mockDirExists = true :=
  ⟨by decide, by decide, by decide⟩

/-- Claim C6, amended: DELETE on a category with no document returns 404 and
creates or changes no category document and no attachment; in the `index.js`
variant the state is fully unchanged, while the `part_000` variant may create
the `mock` data directory itself (its `getCategoryPath` creates it when
absent) as the only side effect. -/
theorem c6_delete_missing_category_amended :
    (∀ (s : FS1) (cat pid : String), s.catFiles (getCategoryPath cat) = none →
      deleteHandler1 s cat pid = (Response.notFoundCategory, s) ∧
      Response.status (deleteHandler1 s cat pid).1 = 404) ∧
    (∀ (s : FS2) (cat pid : String), s.catFiles (getCategoryPath cat) = none →
      (deleteHandler2 s cat pid).1 = Response.notFoundCategory ∧
      Response.status (deleteHandler2 s cat pid).1 = 404 ∧
      ((deleteHandler2 s cat pid).2).catFiles = s.catFiles ∧
      ((deleteHandler2 s cat pid).2).uploads = s.uploads ∧
      ((deleteHandler2 s cat pid).2).mockDirExists = true) := by
  constructor
  · intro s cat pid h
    simp [deleteHandler1, h, Response.status]
  · intro s cat pid h
    simp [deleteHandler2, touchMockDir, h, Response.status]

theorem c6_amended_witness :
    exFS1Empty.catFiles (getCategoryPath "face") = none ∧
    (deleteHandler1 exFS1Empty "face" "x" = (Response.notFoundCategory, exFS1Empty) ∧
      Response.status (deleteHandler1 exFS1Empty "face" "x").1 = 404) ∧
    exFS2Fresh.catFiles (getCategoryPath "face") = none ∧
    ((deleteHandler2 exFS2Fresh "face" "x").1 = Response.notFoundCategory ∧
      Response.status (deleteHandler2 exFS2Fresh "face" "x").1 = 404 ∧
      ((deleteHandler2 exFS2Fresh "face" "x").2).catFiles = exFS2Fresh.catFiles ∧
      ((deleteHandler2 exFS2Fresh "face" "x").2).uploads = exFS2Fresh.uploads ∧
      ((deleteHandler2 exFS2Fresh "face" "x").2).mockDirExists = true) :=
  ⟨by decide,
   c6_delete_missing_category_amended.1 exFS1Empty "face" "x" (by decide),
   by decide,
   c6_delete_missing_category_amended.2 exFS2Fresh "face" "x" (by decide)⟩

/-- Claim C8, counterexample: POSTing `price = "abc"` coerces to `NaN` in the
in-memory product, but the persisted record's `price` is JSON `null`, a
different JavaScript value — the not-a-number value is not stored as-is. -/
theorem c8_claim_counterexample :
    (mkProduct1 "id-1" exBodyNanPrice "face" (imageUrlOf none)).price = JsNum.nan ∧
    (postPipeline1 exFS1Empty "face" exBodyNanPrice none "id-1").1
      = Response.created (serializeProduct1 (mkProduct1 "id-1" exBodyNanPrice "face"
          (imageUrlOf none))) ∧
    ((postPipeline1 exFS1Empty "face" exBodyNanPrice none "id-1").2).catFiles
        (getCategoryPath "face")
      = some (CatFile.json [serializeProduct1 (mkProduct1 "id-1" exBodyNanPrice "face"
          (imageUrlOf none))]) ∧
    (serializeProduct1 (mkProduct1 "id-1" exBodyNanPrice "face" (imageUrlOf none))).price
      = JsonNum.null ∧
    JsonNum.lit (serializeProduct1 (mkProduct1 "id-1" exBodyNanPrice "face"
        (imageUrlOf none))).price
      ≠ JsNum.lit (mkProduct1 "id-1" exBodyNanPrice "face" (imageUrlOf none)).price :=
  ⟨by decide, by decide, by decide, by decide, by decide⟩

/-- Claim C8, amended: the numeric coercion of a present but non-numeric
`price` — or, in the `index.js` variant, of a present but non-numeric volume
(`mililitres`) field — is unchecked: the POST still succeeds with the coerced
`NaN`; but JSON serialization stores that value as `null`, so the persisted
record and the 201 response carry `null` in that field, and a subsequent GET
returns that same null-valued record (price: both variants; volume: V1, the
only variant with a volume attribute). -/
theorem c8_nan_serialized_null_amended :
    (∀ (s : FS1) (cat : String) (body : ReqBody) (file : Option UploadedFile)
        (newId : String) (ps : String),
      truthy body.name = true → body.price = some ps → jsToNumber ps = JsNum.nan →
      (mkProduct1 newId body cat (imageUrlOf file)).price = JsNum.nan ∧
      (postPipeline1 s cat body file newId).1
        = Response.created (serializeProduct1 (mkProduct1 newId body cat (imageUrlOf file))) ∧
      (serializeProduct1 (mkProduct1 newId body cat (imageUrlOf file))).price = JsonNum.null ∧
      ∃ l, (getHandler1 (postPipeline1 s cat body file newId).2 cat).1 = Response.ok l ∧
        serializeProduct1 (mkProduct1 newId body cat (imageUrlOf file)) ∈ l) ∧
    (∀ (s : FS1) (cat : String) (body : ReqBody) (file : Option UploadedFile)
        (newId : String) (ms : String),
      truthy body.name = true → truthy body.price = true →
      body.mililitres = some ms → jsToNumber ms = JsNum.nan →
      (mkProduct1 newId body cat (imageUrlOf file)).mililitres = JsNum.nan ∧
      (postPipeline1 s cat body file newId).1
        = Response.created (serializeProduct1 (mkProduct1 newId body cat (imageUrlOf file))) ∧
      (serializeProduct1 (mkProduct1 newId body cat (imageUrlOf file))).mililitres
        = JsonNum.null ∧
      ∃ l, (getHandler1 (postPipeline1 s cat body file newId).2 cat).1 = Response.ok l ∧
        serializeProduct1 (mkProduct1 newId body cat (imageUrlOf file)) ∈ l) ∧
    (∀ (s : FS2) (cat : String) (body : ReqBody) (file : Option UploadedFile)
        (newId : String) (ps : String),
      truthy body.name = true → body.price = some ps → jsToNumber ps = JsNum.nan →
      (mkProduct2 newId body cat (imageUrlOf file)).price = JsNum.nan ∧
      (postPipeline2 s cat body file newId).1
        = Response.created (serializeProduct2 (mkProduct2 newId body cat (imageUrlOf file))) ∧
      (serializeProduct2 (mkProduct2 newId body cat (imageUrlOf file))).price = JsonNum.null ∧
      ∃ l, (getHandler2 (postPipeline2 s cat body file newId).2 cat).1 = Response.ok l ∧
        serializeProduct2 (mkProduct2 newId body cat (imageUrlOf file)) ∈ l) := by
  refine ⟨?_, ?_, ?_⟩
  · intro s cat body file newId ps hn hpr hnan
    have hps : ps ≠ "" := by
      intro e
      rw [e] at hnan
      exact absurd hnan (by decide)
    have hpt : truthy body.price = true := by simp [hpr, truthy, hps]
    have hv : (!truthy body.name || !truthy body.price) = false := by simp [hn, hpt]
    have hprice : (mkProduct1 newId body cat (imageUrlOf file)).price = JsNum.nan := by
      simp [mkProduct1, hpr, jsNumOfField, hnan]
    refine ⟨hprice, ?_, ?_, ?_⟩
    · simp [postPipeline1, postHandler1, hv]
    · simp [serializeProduct1, hprice, serializeNum]
    · refine ⟨loadData1 (multerSave1 s file) (getCategoryPath cat)
          ++ [serializeProduct1 (mkProduct1 newId body cat (imageUrlOf file))], ?_, ?_⟩
      · simp [postPipeline1, postHandler1, hv, getHandler1, setCat1]
      · simp
  · intro s cat body file newId ms hn hp hm hnan
    have hv : (!truthy body.name || !truthy body.price) = false := by simp [hn, hp]
    have hms : ms ≠ "" := by
      intro e
      rw [e] at hnan
      exact absurd hnan (by decide)
    have hml : (mkProduct1 newId body cat (imageUrlOf file)).mililitres = JsNum.nan := by
      simp [mkProduct1, hm, truthy, hms, jsNumOfField, hnan]
    refine ⟨hml, ?_, ?_, ?_⟩
    · simp [postPipeline1, postHandler1, hv]
    · simp [serializeProduct1, hml, serializeNum]
    · refine ⟨loadData1 (multerSave1 s file) (getCategoryPath cat)
          ++ [serializeProduct1 (mkProduct1 newId body cat (imageUrlOf file))], ?_, ?_⟩
      · simp [postPipeline1, postHandler1, hv, getHandler1, setCat1]
      · simp
  · intro s cat body file newId ps hn hpr hnan
    have hps : ps ≠ "" := by
      intro e
      rw [e] at hnan
      exact absurd hnan (by decide)
    have hpt : truthy body.price = true := by simp [hpr, truthy, hps]
    have hv : (!truthy body.name || !truthy body.price) = false := by simp [hn, hpt]
    have hprice : (mkProduct2 newId body cat (imageUrlOf file)).price = JsNum.nan := by
      simp [mkProduct2, hpr, jsNumOfField, hnan]
    refine ⟨hprice, ?_, ?_, ?_⟩
    · simp [postPipeline2, postHandler2, hv]
    · simp [serializeProduct2, hprice, serializeNum]
    · refine ⟨loadData2 (touchMockDir (multerSave2 s file)) (getCategoryPath cat)
          ++ [serializeProduct2 (mkProduct2 newId body cat (imageUrlOf file))], ?_, ?_⟩
      · simp [postPipeline2, postHandler2, hv, getHandler2, setCat2, touchMockDir]
      · simp

theorem c8_amended_witness :
    truthy exBodyNanPrice.name = true ∧
    exBodyNanPrice.price = some "abc" ∧
    exBodyNanMl.mililitres = some "abc" ∧
    jsToNumber "abc" = JsNum.nan ∧
    ((mkProduct1 "id-1" exBodyNanPrice "face" (imageUrlOf none)).price = JsNum.nan ∧
      (postPipeline1 exFS1Empty "face" exBodyNanPrice none "id-1").1
        = Response.created (serializeProduct1 (mkProduct1 "id-1" exBodyNanPrice "face"
            (imageUrlOf none))) ∧
      (serializeProduct1 (mkProduct1 "id-1" exBodyNanPrice "face" (imageUrlOf none))).price
        = JsonNum.null ∧
      ∃ l, (getHandler1 (postPipeline1 exFS1Empty "face" exBodyNanPrice none "id-1").2
            "face").1 = Response.ok l ∧
        serializeProduct1 (mkProduct1 "id-1" exBodyNanPrice "face" (imageUrlOf none)) ∈ l) ∧
    ((mkProduct1 "id-1" exBodyNanMl "face" (imageUrlOf none)).mililitres = JsNum.nan ∧
      (postPipeline1 exFS1Empty "face" exBodyNanMl none "id-1").1
        = Response.created (serializeProduct1 (mkProduct1 "id-1" exBodyNanMl "face"
            (imageUrlOf none))) ∧
      (serializeProduct1 (mkProduct1 "id-1" exBodyNanMl "face" (imageUrlOf none))).mililitres
        = JsonNum.null ∧
      ∃ l, (getHandler1 (postPipeline1 exFS1Empty "face" exBodyNanMl none "id-1").2
            "face").1 = Response.ok l ∧
        serializeProduct1 (mkProduct1 "id-1" exBodyNanMl "face" (imageUrlOf none)) ∈ l) ∧
    ((mkProduct2 "id-1" exBodyNanPrice "face" (imageUrlOf none)).price = JsNum.nan ∧
      (postPipeline2 exFS2Empty "face" exBodyNanPrice none "id-1").1
        = Response.created (serializeProduct2 (mkProduct2 "id-1" exBodyNanPrice "face"
            (imageUrlOf none))) ∧
      (serializeProduct2 (mkProduct2 "id-1" exBodyNanPrice "face" (imageUrlOf none))).price
        = JsonNum.null ∧
      ∃ l, (getHandler2 (postPipeline2 exFS2Empty "face" exBodyNanPrice none "id-1").2
            "face").1 = Response.ok l ∧
        serializeProduct2 (mkProduct2 "id-1" exBodyNanPrice "face" (imageUrlOf none)) ∈ l) :=
  ⟨by decide, by decide, by decide, by decide,
   c8_nan_serialized_null_amended.1 exFS1Empty "face" exBodyNanPrice none "id-1" "abc"
     (by decide) (by decide) (by decide),
   c8_nan_serialized_null_amended.2.1 exFS1Empty "face" exBodyNanMl none "id-1" "abc"
     (by decide) (by decide) (by decide) (by decide),
   c8_nan_serialized_null_amended.2.2 exFS2Empty "face" exBodyNanPrice none "id-1" "abc"
     (by decide) (by decide) (by decide)⟩
